import Mathlib

/-!
Shallow embedding of the okx_marketintensity_trader repository core
(`MarketDataFetcher.py`, `OkxSimulatedTrade.py`, `StatusChecker.py`) and
proofs about it.

Modelling conventions:
* JSON payload fields that may be absent are `Option` fields; a Python
  `dict.get(k)` is the `Option` value, `dict.get(k, d)` uses `Option.getD`.
* A Python operation that can raise (list indexing) returns `Except Unit`;
  a surrounding `try/except` is a `match` on that result.
* Stateful methods become pure functions `State → ... → State`, paired with
  a list of emitted I/O actions (sends, sleeps) where a claim needs them.
* Numeric trade/book payloads are carried as the strings the exchange sends;
  no claim computes with them.
-/

/-- One element of a `trades` frame's `data` array; also the `trade_info`
record built from it in `handle_trade_message` (the same seven `get` calls). -/
structure TradeElem where
  instId : Option String
  tradeId : Option String
  px : Option String
  sz : Option String
  side : Option String
  ts : Option String
  count : Option String
deriving DecidableEq, Repr

/-- One order-book message body. `hasBids` models whether the `"bids"` key is
present; `bids` is the list of levels, each level a list of strings
(price, size, ...). Other keys are never read by the code under proof. -/
structure BookData where
  hasBids : Bool
  bids : List (List String)
deriving DecidableEq, Repr

/-- Python list indexing `l[i]`: the element, or an `IndexError`. -/
def pyGet (l : List α) (i : Nat) : Except Unit α :=
  match l.get? i with
  | some x => Except.ok x
  | none => Except.error ()

/-- State of `MarketDataFetch` (fields of `__init__` that the claims touch). -/
structure MarketState where
  data_deque : List TradeElem
  order_book_data : Option BookData
  max_messages : Option Nat
  message_count : Nat
  stop_flag : Bool
  trade_queue : List TradeElem
  order_book_deque : List BookData
deriving DecidableEq, Repr

namespace MarketDataFetch

/-- Method `get_latest_bid4_price`: reads the last snapshot; when the `"bids"` key is
present and `len(bids) >= 5`, returns `bids[5][0]` (an access that can raise);
otherwise returns `None` (including the implicit fall-through when the deque
is empty). -/
def get_latest_bid4_price (st : MarketState) : Except Unit (Option String) :=
  match st.order_book_deque.getLast? with
  | none => Except.ok none
  | some latest =>
    if latest.hasBids && decide (5 ≤ latest.bids.length) then
      match pyGet latest.bids 5 with
      | Except.error e => Except.error e
      | Except.ok level =>
        match pyGet level 0 with
        | Except.error e => Except.error e
        | Except.ok px => Except.ok (some px)
    else Except.ok none

/-- Method `get_latest_bid2_price`: guard `len(bids) >= 3`, access `bids[2][0]`. -/
def get_latest_bid2_price (st : MarketState) : Except Unit (Option String) :=
  match st.order_book_deque.getLast? with
  | none => Except.ok none
  | some latest =>
    if latest.hasBids && decide (3 ≤ latest.bids.length) then
      match pyGet latest.bids 2 with
      | Except.error e => Except.error e
      | Except.ok level =>
        match pyGet level 0 with
        | Except.error e => Except.error e
        | Except.ok px => Except.ok (some px)
    else Except.ok none

/-- Method `get_latest_bid0_price`: guard `len(bids) >= 1`, access `bids[0][0]`. -/
def get_latest_bid0_price (st : MarketState) : Except Unit (Option String) :=
  match st.order_book_deque.getLast? with
  | none => Except.ok none
  | some latest =>
    if latest.hasBids && decide (1 ≤ latest.bids.length) then
      match pyGet latest.bids 0 with
      | Except.error e => Except.error e
      | Except.ok level =>
        match pyGet level 0 with
        | Except.error e => Except.error e
        | Except.ok px => Except.ok (some px)
    else Except.ok none

end MarketDataFetch

/-- One decoded WebSocket frame, as discriminated by `process_message`:
a JSON decode failure, a frame without a `data` key, a `trades` frame,
a `books` frame (whose `data` array may be empty — then `data['data'][0]`
raises and the frame is dropped by the surrounding `except`), or a frame
for some other channel. -/
inductive Frame
  | malformed
  | noData
  | trades (elems : List TradeElem)
  | books (elems : List BookData)
  | otherChannel
deriving DecidableEq, Repr

namespace MarketDataFetch

/-- Method `handle_trade_message`: for each element of the frame's data array,
append the trade record to `data_deque`, increment `message_count`, and put
the record on `trade_queue`. -/
def handle_trade_message (st : MarketState) (elems : List TradeElem) : MarketState :=
  elems.foldl
    (fun s t =>
      { s with
        data_deque := s.data_deque ++ [t]
        message_count := s.message_count + 1
        trade_queue := s.trade_queue ++ [t] })
    st

/-- Method `handle_order_book_message`: replace `order_book_data` with the new body
and append it to `order_book_deque`. -/
def handle_order_book_message (st : MarketState) (b : BookData) : MarketState :=
  { st with
    order_book_data := some b
    order_book_deque := st.order_book_deque ++ [b] }

/-- Method `process_message`: frames without a data payload, undecodable frames and
frames of other channels are dropped; `trades` frames go to
`handle_trade_message`; `books` frames pass `data['data'][0]` to
`handle_order_book_message` (an empty data array raises inside the `try`,
so the frame is logged and dropped). -/
def process_message (st : MarketState) : Frame → MarketState
  | Frame.malformed => st
  | Frame.noData => st
  | Frame.otherChannel => st
  | Frame.trades elems => handle_trade_message st elems
  | Frame.books [] => st
  | Frame.books (b :: _) => handle_order_book_message st b

/-- The cap test of `connect`'s inner loop:
`max_messages is not None and message_count >= max_messages`. -/
def capReached (st : MarketState) : Bool :=
  match st.max_messages with
  | none => false
  | some cap => decide (cap ≤ st.message_count)

/-- One iteration of `connect`'s inner loop after a frame is received:
process the frame, then set `stop_flag` when the cap test holds. -/
def stepFrame (st : MarketState) (f : Frame) : MarketState :=
  let st' := process_message st f
  if capReached st' then { st' with stop_flag := true } else st'

end MarketDataFetch

/-- Observable events of the `connect` loop, in order: a successful
`websockets.connect`, the two subscription sends, a received frame, and the
fixed `asyncio.sleep(2)` of the two `except` arms. -/
inductive Event
  | connected
  | subTrades
  | subBooks
  | recv (f : Frame)
  | sleep (n : Nat)
deriving DecidableEq, Repr

/-- One attempt of `connect`'s outer loop as seen from outside: whether
`websockets.connect` succeeded, and the frames received before the
connection closed or errored. -/
structure Session where
  connectOk : Bool
  frames : List Frame
deriving DecidableEq, Repr

namespace MarketDataFetch

/-- Loop: `connect`'s inner `while not stop_flag` loop over the frames a
connection yields, with the received frames as its event trace. When the
frame list is exhausted without the stop flag set, the next `recv` raises
(connection closed/errored), which `runSession` accounts for. -/
def innerLoop (st : MarketState) : List Frame → MarketState × List Event
  | [] => (st, [])
  | f :: fs =>
    if st.stop_flag then (st, [])
    else
      let r := innerLoop (stepFrame st f) fs
      (r.1, Event.recv f :: r.2)

/-- One iteration of `connect`'s outer loop (`try` body plus `except` arms):
a failed `websockets.connect` raises and only sleeps 2; a successful one
subscribes to trades then books, reads frames, and — unless the inner loop
exited because the stop flag was set — ends in a raised closure/error whose
`except` arm sleeps 2. -/
def runSession (st : MarketState) (s : Session) : MarketState × List Event :=
  if s.connectOk then
    let r := innerLoop st s.frames
    if r.1.stop_flag then
      (r.1, Event.connected :: Event.subTrades :: Event.subBooks :: r.2)
    else
      (r.1, Event.connected :: Event.subTrades :: Event.subBooks :: r.2 ++ [Event.sleep 2])
  else (st, [Event.sleep 2])

/-- Loop: `connect`'s outer `while not stop_flag` loop over a list of connection
attempts. -/
def connectLoop (st : MarketState) : List Session → MarketState × List Event
  | [] => (st, [])
  | s :: rest =>
    if st.stop_flag then (st, [])
    else
      let r := runSession st s
      let r2 := connectLoop r.1 rest
      (r2.1, r.2 ++ r2.2)

end MarketDataFetch

/-- One element of a private-channel message's `data` array — only the keys
the code reads: the routing `clOrdId` and the per-item `sMsg` text. -/
structure MsgItem where
  clOrdId : Option String
  sMsg : Option String
deriving DecidableEq, Repr

/-- A decoded private-channel message: the top-level `code` and the optional
`data` array. -/
structure OrderMsg where
  code : Option String
  data : Option (List MsgItem)
deriving DecidableEq, Repr

/-- One entry of the `orders` registry, as built in `place_limit_order`
(the per-order mailbox is modelled by the delivery function instead). -/
structure OrderInfo where
  symbol : String
  side : String
  price : Int
  size : Int
  status : String
deriving DecidableEq, Repr

/-- Mutable state of `OkxSimulatedTrader` that the claims touch: the
`orders` registry and the `order_tasks` registry. Dict keys are unique, so
removal delete every entry with the key. -/
structure TraderState where
  orders : List (String × OrderInfo)
  order_tasks : List String
deriving DecidableEq, Repr

/-- Ordered I/O actions a lifecycle task performs. -/
inductive LAction
  | sendOrder
  | sleepTimeout
  | queryOracle
  | sendCancel
deriving DecidableEq, Repr

/-- Failure points injected into `process_order`'s `try` body to model an
uncaught error raised there; the `finally` must still run. -/
inductive FaultPoint
  | beforeOracle
  | beforeCancel
deriving DecidableEq, Repr

/-- Dict lookup `self.orders.get(clordid)`. -/
def lookupOrder : List (String × OrderInfo) → String → Option OrderInfo
  | [], _ => none
  | (k, v) :: rest, clid => if k = clid then some v else lookupOrder rest clid

/-- Character-list helper for the Python substring test: does the first list
lead the second? -/
def leadsWith : List Char → List Char → Bool
  | [], _ => true
  | _ :: _, [] => false
  | a :: as, b :: bs => a == b && leadsWith as bs

/-- Character-list helper: does the needle occur contiguously in the hay? -/
def containsSeq (needle : List Char) : List Char → Bool
  | [] => needle.isEmpty
  | b :: bs => leadsWith needle (b :: bs) || containsSeq needle bs

/-- Python's substring test `needle in hay` on strings. -/
def strContains (needle hay : String) : Bool :=
  containsSeq needle.toList hay.toList

namespace OkxSimulatedTrader

/-- Helper for the status write: rewrite the status stored under a key of
the association list (dict keys are unique, so this is dict assignment). -/
def setStatusList : List (String × OrderInfo) → String → String → List (String × OrderInfo)
  | [], _, _ => []
  | (k, v) :: rest, clid, s =>
    if k = clid then (k, { v with status := s }) :: setStatusList rest clid s
    else (k, v) :: setStatusList rest clid s

/-- Status write `self.orders[clordid]['status'] = s` (the key is present at
every call site of the source). -/
def setStatus (st : TraderState) (clid : String) (s : String) : TraderState :=
  { st with orders := setStatusList st.orders clid s }

/-- Status read: the registered order's current status, if any. -/
def statusOf (st : TraderState) (clid : String) : Option String :=
  (lookupOrder st.orders clid).map (fun o => o.status)

/-- The extraction `data.get('data', [{}])[0].get('sMsg', '')` in
`cancel_order`: an absent `data` key defaults to `[{}]` whose first element
yields `''`, while a present-but-empty array makes the `[0]` raise. -/
def extract_sMsg (m : OrderMsg) : Except Unit String :=
  match m.data with
  | none => Except.ok ""
  | some [] => Except.error ()
  | some (item :: _) => Except.ok (item.sMsg.getD "")

/-- Decision step of `cancel_order` on the awaited ack: the sMsg extraction
first (its raise is caught by the `except` arm, which logs and leaves the
status alone), then ack code `"0"` → status canceled, else text containing
`"filled"` → status filled, else log the failure and leave the status. The
Bool records whether a failure was logged. -/
def cancel_decide (st : TraderState) (clordid : String) (m : OrderMsg) :
    TraderState × Bool :=
  match extract_sMsg m with
  | Except.error _ => (st, true)
  | Except.ok s_msg =>
    if m.code = some "0" then (setStatus st clordid "canceled", false)
    else if strContains "filled" s_msg then (setStatus st clordid "filled", false)
    else (st, true)

/-- Method `cancel_order`: the guard clauses (falsy `clordid`, unknown order,
falsy symbol) log a warning and send nothing; otherwise the cancel request
is sent and the awaited ack decides the outcome. Returns the new state, the
emitted actions, and whether a warning or failure was logged. -/
def cancel_order (st : TraderState) (clordid : String) (m : OrderMsg) :
    TraderState × List LAction × Bool :=
  if clordid = "" then (st, [], true)
  else
    match lookupOrder st.orders clordid with
    | none => (st, [], true)
    | some ord =>
      if ord.symbol = "" then (st, [], true)
      else
        let d := cancel_decide st clordid m
        (d.1, [LAction.sendCancel], d.2)

/-- Method `submit_order`: sends the placement request, awaits one mailbox
message and returns whether its code is `"0"`. It never writes the order's
status (its `except` arm likewise only logs and returns failure). -/
def submit_order (st : TraderState) (ack : OrderMsg) :
    TraderState × Bool × List LAction :=
  (st, decide (ack.code = some "0"), [LAction.sendOrder])

/-- The oracle test `order_status in ("filled", "canceled")` (a `None`
oracle answer is in neither). -/
def oracleTerminal (oracle : Option String) : Bool :=
  match oracle with
  | some s => s == "filled" || s == "canceled"
  | none => false

/-- The `try` body of `process_order`: submit and stop on failure; else
sleep the timeout, query the oracle, record a terminal oracle answer and
skip cancellation, or else run `cancel_order`. `fault` raises an uncaught
error at the marked point. Returns state, actions, and whether the body
raised. -/
def process_order_body (st : TraderState) (clordid : String) (submitAck : OrderMsg)
    (oracle : Option String) (cancelAck : OrderMsg) (fault : Option FaultPoint) :
    TraderState × List LAction × Bool :=
  let sub := submit_order st submitAck
  if sub.2.1 = false then (sub.1, sub.2.2, false)
  else if fault = some FaultPoint.beforeOracle then
    (sub.1, sub.2.2 ++ [LAction.sleepTimeout], true)
  else if oracleTerminal oracle then
    (setStatus sub.1 clordid (oracle.getD ""),
      sub.2.2 ++ [LAction.sleepTimeout, LAction.queryOracle], false)
  else if fault = some FaultPoint.beforeCancel then
    (sub.1, sub.2.2 ++ [LAction.sleepTimeout, LAction.queryOracle], true)
  else
    let c := cancel_order sub.1 clordid cancelAck
    (c.1, sub.2.2 ++ [LAction.sleepTimeout, LAction.queryOracle] ++ c.2.1, false)

/-- The `finally` of `process_order`: `self.order_tasks.pop(clordid, None)`. -/
def popTask (st : TraderState) (clid : String) : TraderState :=
  { st with order_tasks := st.order_tasks.filter (fun k => k != clid) }

/-- Method `process_order`: the `try` body followed unconditionally — also
when the body raised — by the `finally` pop of the task entry. -/
def process_order (st : TraderState) (clordid : String) (submitAck : OrderMsg)
    (oracle : Option String) (cancelAck : OrderMsg) (fault : Option FaultPoint) :
    TraderState × List LAction × Bool :=
  let r := process_order_body st clordid submitAck oracle cancelAck fault
  (popTask r.1 clordid, r.2)

/-- One iteration of `consume_messages` on a decoded message: the ids whose
mailbox receives it — for each element of the `data` array (when the key is
present), the element's `clOrdId` whenever that id is a key of
`order_tasks`. Everything else is dropped, and the per-message `except`
arms keep any error from propagating. -/
def consume_one (tasks : List String) (m : OrderMsg) : List String :=
  match m.data with
  | none => []
  | some items =>
    (items.filterMap (fun it => it.clOrdId)).filter (fun c => tasks.contains c)

/-- Method `generate_signature` with the `hmac`/`hashlib`/`base64` library
primitives passed as parameters: base64-encode the HMAC-SHA256, keyed by
the secret, of timestamp + uppercased method + request path + body. -/
def generate_signature (hmac_sha256 : String → String → List UInt8)
    (b64encode : List UInt8 → String)
    (secret_key timestamp method request_path body : String) : String :=
  let message := timestamp ++ method.toUpper ++ request_path ++ body
  b64encode (hmac_sha256 secret_key message)

end OkxSimulatedTrader

/-- Per-order record of the REST response's `data` array (only `state` is
read). -/
structure RestOrderData where
  state : Option String
deriving DecidableEq, Repr

/-- REST response envelope of the status oracle: `code` and the
`data.get("data", [])` array. -/
structure RestEnvelope where
  code : Option String
  data : List RestOrderData
deriving DecidableEq, Repr

/-- Outcome of the `requests.get` + `raise_for_status` + `json()` sequence:
a `requests.RequestException`, or a decoded body. -/
inductive HttpOutcome
  | requestError
  | response (body : RestEnvelope)
deriving DecidableEq, Repr

namespace OrderStatusChecker

/-- Method `get_order_status` as a function of the HTTP outcome: the state
of the first order record on success, `None` otherwise. The Bool records
whether a failure was logged (printed). The `RequestException` arm makes
the function total: no exception reaches the caller. -/
def get_order_status : HttpOutcome → Option String × Bool
  | HttpOutcome.requestError => (none, true)
  | HttpOutcome.response b =>
    if b.code = some "0" then
      match b.data with
      | [] => (none, true)
      | d :: _ => (d.state, false)
    else (none, true)

/-- Method `_generate_signature` of `StatusChecker.py`, with the same
library primitives as parameters; textually the same computation as the
trader's `generate_signature`. -/
def _generate_signature (hmac_sha256 : String → String → List UInt8)
    (b64encode : List UInt8 → String)
    (api_secret timestamp method request_path body : String) : String :=
  let message := timestamp ++ method.toUpper ++ request_path ++ body
  b64encode (hmac_sha256 api_secret message)

end OrderStatusChecker

/-- A registered pending order on BTC-USDT with a live task entry, keyed by
the client order id "abc". -/
def pendingOrder : OrderInfo :=
  { symbol := "BTC-USDT", side := "buy", price := 100, size := 1, status := "pending" }

/-- Trader state holding exactly the order "abc". -/
def oneOrderState : TraderState :=
  { orders := [("abc", pendingOrder)], order_tasks := ["abc"] }

/-- A success acknowledgment for order "abc". -/
def ackOk : OrderMsg :=
  { code := some "0", data := some [{ clOrdId := some "abc", sMsg := some "" }] }

/-- A rejection acknowledgment for order "abc". -/
def ackRejected : OrderMsg :=
  { code := some "1", data := some [{ clOrdId := some "abc", sMsg := some "rejected" }] }

/-- A failed-cancel acknowledgment whose error text reports a fill. -/
def ackFilledText : OrderMsg :=
  { code := some "51402",
    data := some [{ clOrdId := some "abc", sMsg := some "Order has been filled" }] }

/-- A concrete trade element, as the exchange would send it. -/
def sampleTrade : TradeElem :=
  { instId := some "BTC-USDT", tradeId := some "1", px := some "100"
    sz := some "2", side := some "buy", ts := some "0", count := some "1" }

/-- A second concrete trade element. -/
def sampleTrade2 : TradeElem :=
  { instId := some "BTC-USDT", tradeId := some "2", px := some "101"
    sz := some "3", side := some "sell", ts := some "1", count := some "1" }

/-- A fresh `MarketDataFetch` state configured with a message cap of 1. -/
def capOneState : MarketState :=
  { data_deque := []
    order_book_data := none
    max_messages := some 1
    message_count := 0
    stop_flag := false
    trade_queue := []
    order_book_deque := [] }

/-- A market state holding exactly one snapshot whose bid side has exactly
five levels — the boundary case of the `get_latest_bid4_price` guard. -/
def fiveLevelState : MarketState :=
  { data_deque := []
    order_book_data := none
    max_messages := some 50
    message_count := 0
    stop_flag := false
    trade_queue := []
    order_book_deque :=
      [{ hasBids := true
         bids := [["100", "1"], ["99", "1"], ["98", "1"], ["97", "1"], ["96", "1"]] }] }

/-- C3: the bid-depth accessors never error and return none when the depth is
unavailable — REFUTED at the boundary. With a snapshot of exactly five bid
levels, depth index 5 is unavailable, yet `get_latest_bid4_price` passes its
own guard (`len >= 5`) and the access `bids[5]` raises an IndexError instead
of returning none; on the same state the index-2 and index-0 accessors
return their prices normally. -/
theorem bid4_guard_off_by_one :
    MarketDataFetch.get_latest_bid4_price fiveLevelState = Except.error ()
    ∧ MarketDataFetch.get_latest_bid2_price fiveLevelState = Except.ok (some "98")
    ∧ MarketDataFetch.get_latest_bid0_price fiveLevelState = Except.ok (some "100")
    ∧ MarketDataFetch.get_latest_bid4_price
        { fiveLevelState with order_book_deque := [] } = Except.ok none := by
  refine ⟨rfl, rfl, rfl, rfl⟩

/-- Helper: unfolding `handle_trade_message` one element at a time. -/
theorem handle_trade_cons (st : MarketState) (t : TradeElem) (ts : List TradeElem) :
    MarketDataFetch.handle_trade_message st (t :: ts)
      = MarketDataFetch.handle_trade_message
          { st with
            data_deque := st.data_deque ++ [t]
            message_count := st.message_count + 1
            trade_queue := st.trade_queue ++ [t] } ts := rfl

/-- Helper: field accounting for `handle_trade_message` — the cap and stop
flag are untouched, and the counter, deque and queue each grow by the number
of elements in the frame. -/
theorem handle_trade_fields (elems : List TradeElem) : ∀ st : MarketState,
    (MarketDataFetch.handle_trade_message st elems).max_messages = st.max_messages
    ∧ (MarketDataFetch.handle_trade_message st elems).stop_flag = st.stop_flag
    ∧ (MarketDataFetch.handle_trade_message st elems).message_count
        = st.message_count + elems.length
    ∧ (MarketDataFetch.handle_trade_message st elems).data_deque.length
        = st.data_deque.length + elems.length
    ∧ (MarketDataFetch.handle_trade_message st elems).trade_queue.length
        = st.trade_queue.length + elems.length := by
  induction elems with
  | nil =>
    intro st
    simp [MarketDataFetch.handle_trade_message]
  | cons t ts ih =>
    intro st
    rw [handle_trade_cons]
    have h := ih
      { st with
        data_deque := st.data_deque ++ [t]
        message_count := st.message_count + 1
        trade_queue := st.trade_queue ++ [t] }
    simp only [List.length_cons] at h ⊢
    refine ⟨h.1, h.2.1, ?_, ?_, ?_⟩
    · rw [h.2.2.1]; omega
    · rw [h.2.2.2.1]; simp; omega
    · rw [h.2.2.2.2]; simp; omega

/-- Helper: `process_message` never changes `max_messages` or `stop_flag`. -/
theorem process_message_fields (st : MarketState) (f : Frame) :
    (MarketDataFetch.process_message st f).max_messages = st.max_messages
    ∧ (MarketDataFetch.process_message st f).stop_flag = st.stop_flag := by
  cases f with
  | malformed => exact ⟨rfl, rfl⟩
  | noData => exact ⟨rfl, rfl⟩
  | otherChannel => exact ⟨rfl, rfl⟩
  | trades elems =>
    exact ⟨(handle_trade_fields elems st).1, (handle_trade_fields elems st).2.1⟩
  | books elems =>
    cases elems with
    | nil => exact ⟨rfl, rfl⟩
    | cons b bs =>
      simp [MarketDataFetch.process_message, MarketDataFetch.handle_order_book_message]

/-- Helper: the inner receive loop emits only `recv` events. -/
theorem innerLoop_events_recv (fs : List Frame) : ∀ (st : MarketState) (e : Event),
    e ∈ (MarketDataFetch.innerLoop st fs).2 → ∃ f, e = Event.recv f := by
  induction fs with
  | nil =>
    intro st e he
    simp [MarketDataFetch.innerLoop] at he
  | cons f fs ih =>
    intro st e he
    by_cases h : st.stop_flag
    · simp [MarketDataFetch.innerLoop, h] at he
    · simp only [MarketDataFetch.innerLoop, h] at he
      simp only [Bool.false_eq_true, if_false, List.mem_cons] at he
      rcases he with he | he
      · exact ⟨f, he⟩
      · exact ih (MarketDataFetch.stepFrame st f) e he

/-- Helper: every sleep event a single session emits has duration 2. -/
theorem runSession_sleep_two (st : MarketState) (s : Session) (n : Nat)
    (h : Event.sleep n ∈ (MarketDataFetch.runSession st s).2) : n = 2 := by
  cases hc : s.connectOk with
  | false =>
    simp [MarketDataFetch.runSession, hc] at h
    exact h
  | true =>
    cases hs : (MarketDataFetch.innerLoop st s.frames).1.stop_flag with
    | true =>
      simp [MarketDataFetch.runSession, hc, hs] at h
      rcases innerLoop_events_recv s.frames st _ h with ⟨f, hf⟩
      simp at hf
    | false =>
      simp [MarketDataFetch.runSession, hc, hs] at h
      rcases h with h | h
      · rcases innerLoop_events_recv s.frames st _ h with ⟨f, hf⟩
        simp at hf
      · exact h

/-- Helper: every sleep event the whole connection loop emits has duration 2. -/
theorem connectLoop_sleep_two (sessions : List Session) : ∀ (st : MarketState) (n : Nat),
    Event.sleep n ∈ (MarketDataFetch.connectLoop st sessions).2 → n = 2 := by
  induction sessions with
  | nil =>
    intro st n h
    simp [MarketDataFetch.connectLoop] at h
  | cons s rest ih =>
    intro st n h
    cases hs : st.stop_flag with
    | true => simp [MarketDataFetch.connectLoop, hs] at h
    | false =>
      simp only [MarketDataFetch.connectLoop, hs, Bool.false_eq_true, if_false] at h
      rw [List.mem_append] at h
      rcases h with h | h
      · exact runSession_sleep_two st s n h
      · exact ih _ n h

/-- C7: when a message cap is configured and the run is live, after a frame
is processed the stop flag is set exactly when the counter has reached the
cap; order-book frames never advance the counter and update the latest
snapshot and the history. -/
theorem cap_stop_exact_books_uncounted (st : MarketState) (f : Frame) (cap : Nat)
    (hcap : st.max_messages = some cap) (hstop : st.stop_flag = false) :
    ((MarketDataFetch.stepFrame st f).stop_flag = true
       ↔ cap ≤ (MarketDataFetch.process_message st f).message_count)
    ∧ (∀ elems, (MarketDataFetch.process_message st (Frame.books elems)).message_count
         = st.message_count)
    ∧ ∀ b bs,
        (MarketDataFetch.process_message st (Frame.books (b :: bs))).order_book_data = some b
        ∧ (MarketDataFetch.process_message st (Frame.books (b :: bs))).order_book_deque
            = st.order_book_deque ++ [b] := by
  refine ⟨?_, ?_, ?_⟩
  · by_cases hle : cap ≤ (MarketDataFetch.process_message st f).message_count
    · simp [MarketDataFetch.stepFrame, MarketDataFetch.capReached,
        (process_message_fields st f).1, hcap, hle]
    · simp [MarketDataFetch.stepFrame, MarketDataFetch.capReached,
        (process_message_fields st f).1, hcap, hle,
        (process_message_fields st f).2, hstop]
  · intro elems
    cases elems with
    | nil => rfl
    | cons b bs => rfl
  · intro b bs
    exact ⟨rfl, rfl⟩

/-- Witness for C7 at a concrete input: with cap 1 and a one-trade frame the
stop flag is set right after the frame is processed. -/
theorem cap_stop_exact_books_uncounted_witness :
    (MarketDataFetch.stepFrame capOneState (Frame.trades [sampleTrade])).stop_flag = true :=
  ((cap_stop_exact_books_uncounted capOneState (Frame.trades [sampleTrade]) 1
      rfl rfl).1).mpr (by decide)

/-- C10: the trade counter, the trade deque and the trade output queue all
advance by the number of elements of a trades frame (so they stay equal when
they start equal), and the counter can exceed the cap when the final frame
carries several trades: with cap 1, a single two-trade frame leaves the run
stopped with counter 2. -/
theorem trade_counter_accounting :
    (∀ (st : MarketState) (elems : List TradeElem),
        (MarketDataFetch.handle_trade_message st elems).message_count
          = st.message_count + elems.length
        ∧ (MarketDataFetch.handle_trade_message st elems).data_deque.length
          = st.data_deque.length + elems.length
        ∧ (MarketDataFetch.handle_trade_message st elems).trade_queue.length
          = st.trade_queue.length + elems.length)
    ∧ (capOneState.max_messages = some 1
        ∧ (MarketDataFetch.innerLoop capOneState
            [Frame.trades [sampleTrade, sampleTrade2]]).1.message_count = 2
        ∧ 1 < (MarketDataFetch.innerLoop capOneState
            [Frame.trades [sampleTrade, sampleTrade2]]).1.message_count
        ∧ (MarketDataFetch.innerLoop capOneState
            [Frame.trades [sampleTrade, sampleTrade2]]).1.stop_flag = true) := by
  refine ⟨?_, by decide, by decide, by decide, by decide⟩
  intro st elems
  exact ⟨(handle_trade_fields elems st).2.2.1,
    (handle_trade_fields elems st).2.2.2.1,
    (handle_trade_fields elems st).2.2.2.2⟩

/-- C8: every backoff sleep the connection loop ever performs is the fixed
2 time units (non-escalating); every successful connection emits the trades
subscription and the books subscription before any received frame; a session
that ends without the stop flag set ends in the backoff sleep; and the outer
loop then proceeds to the next connection attempt. -/
theorem fixed_backoff_and_resubscribe (st : MarketState) (sessions : List Session) :
    (∀ n, Event.sleep n ∈ (MarketDataFetch.connectLoop st sessions).2 → n = 2)
    ∧ (∀ s : Session, s.connectOk = true →
        ∃ evs, (MarketDataFetch.runSession st s).2
            = Event.connected :: Event.subTrades :: Event.subBooks :: evs
          ∧ ∀ e ∈ evs, (∃ f, e = Event.recv f) ∨ e = Event.sleep 2)
    ∧ (∀ s : Session, (MarketDataFetch.runSession st s).1.stop_flag = false →
        ∃ evs, (MarketDataFetch.runSession st s).2 = evs ++ [Event.sleep 2])
    ∧ (∀ (s : Session) (rest : List Session), st.stop_flag = false →
        (MarketDataFetch.connectLoop st (s :: rest)).2
          = (MarketDataFetch.runSession st s).2
            ++ (MarketDataFetch.connectLoop (MarketDataFetch.runSession st s).1 rest).2) := by
  refine ⟨fun n h => connectLoop_sleep_two sessions st n h, ?_, ?_, ?_⟩
  · intro s hc
    cases hs : (MarketDataFetch.innerLoop st s.frames).1.stop_flag with
    | true =>
      refine ⟨(MarketDataFetch.innerLoop st s.frames).2, ?_, ?_⟩
      · simp [MarketDataFetch.runSession, hc, hs]
      · intro e he
        exact Or.inl (innerLoop_events_recv s.frames st e he)
    | false =>
      refine ⟨(MarketDataFetch.innerLoop st s.frames).2 ++ [Event.sleep 2], ?_, ?_⟩
      · simp [MarketDataFetch.runSession, hc, hs]
      · intro e he
        rw [List.mem_append] at he
        rcases he with he | he
        · exact Or.inl (innerLoop_events_recv s.frames st e he)
        · rw [List.mem_singleton] at he
          exact Or.inr he
  · intro s hstop'
    cases hc : s.connectOk with
    | false =>
      exact ⟨[], by simp [MarketDataFetch.runSession, hc]⟩
    | true =>
      cases hs : (MarketDataFetch.innerLoop st s.frames).1.stop_flag with
      | true => simp [MarketDataFetch.runSession, hc, hs] at hstop'
      | false =>
        exact ⟨Event.connected :: Event.subTrades :: Event.subBooks
            :: (MarketDataFetch.innerLoop st s.frames).2,
          by simp [MarketDataFetch.runSession, hc, hs]⟩
  · intro s rest hstop
    simp [MarketDataFetch.connectLoop, hstop]

/-- Witness for C8 at a concrete input: a fresh session on a successful
connection subscribes to both channels before any frame is consumed. -/
theorem fixed_backoff_and_resubscribe_witness :
    ∃ evs, (MarketDataFetch.runSession capOneState { connectOk := true, frames := [] }).2
        = Event.connected :: Event.subTrades :: Event.subBooks :: evs
      ∧ ∀ e ∈ evs, (∃ f, e = Event.recv f) ∨ e = Event.sleep 2 :=
  (fixed_backoff_and_resubscribe capOneState []).2.1
    { connectOk := true, frames := [] } rfl

/-- Helper: a status write is visible through lookup. -/
theorem lookupOrder_statusWrite (orders : List (String × OrderInfo)) (clid s : String) :
    lookupOrder (OkxSimulatedTrader.setStatusList orders clid s) clid
      = (lookupOrder orders clid).map (fun o => { o with status := s }) := by
  induction orders with
  | nil => rfl
  | cons p rest ih =>
    obtain ⟨k, v⟩ := p
    by_cases h : k = clid
    · simp [OkxSimulatedTrader.setStatusList, lookupOrder, h]
    · simp [OkxSimulatedTrader.setStatusList, lookupOrder, h, ih]

/-- Helper: `setStatus` sets the looked-up status of a registered order. -/
theorem statusOf_setStatus (st : TraderState) (clid s : String) (ord : OrderInfo)
    (h : lookupOrder st.orders clid = some ord) :
    OkxSimulatedTrader.statusOf (OkxSimulatedTrader.setStatus st clid s) clid = some s := by
  simp [OkxSimulatedTrader.statusOf, OkxSimulatedTrader.setStatus,
    lookupOrder_statusWrite, h]

/-- Helper: the finally pop never touches the orders registry. -/
theorem statusOf_popTask (st : TraderState) (c clid : String) :
    OkxSimulatedTrader.statusOf (OkxSimulatedTrader.popTask st c) clid
      = OkxSimulatedTrader.statusOf st clid := rfl

/-- Helper: the Bool oracle test agrees with the propositional one. -/
theorem oracleTerminal_iff (oracle : Option String) :
    OkxSimulatedTrader.oracleTerminal oracle = true
      ↔ (oracle = some "filled" ∨ oracle = some "canceled") := by
  cases oracle with
  | none => simp [OkxSimulatedTrader.oracleTerminal]
  | some s => simp [OkxSimulatedTrader.oracleTerminal]

/-- C1: for a mailbox-delivered cancel acknowledgment — such messages always
carry a non-empty data array, as the last conjunct shows — ack code "0"
makes the final status canceled; a non-zero code whose sMsg text contains
"filled" makes it filled, whatever the code value; in every other case the
status keeps its pre-cancel value and the failure is logged. -/
theorem cancel_ack_trichotomy (st : TraderState) (clordid : String) (ord : OrderInfo)
    (m : OrderMsg) (item : MsgItem) (rest : List MsgItem)
    (hid : clordid ≠ "") (hord : lookupOrder st.orders clordid = some ord)
    (hsym : ord.symbol ≠ "") (hdata : m.data = some (item :: rest)) :
    (m.code = some "0" →
      OkxSimulatedTrader.statusOf
          (OkxSimulatedTrader.cancel_order st clordid m).1 clordid = some "canceled")
    ∧ (m.code ≠ some "0" →
        strContains "filled" (item.sMsg.getD "") = true →
        OkxSimulatedTrader.statusOf
            (OkxSimulatedTrader.cancel_order st clordid m).1 clordid = some "filled")
    ∧ (m.code ≠ some "0" →
        strContains "filled" (item.sMsg.getD "") = false →
        OkxSimulatedTrader.statusOf
            (OkxSimulatedTrader.cancel_order st clordid m).1 clordid = some ord.status
        ∧ (OkxSimulatedTrader.cancel_order st clordid m).2.2 = true)
    ∧ ∀ (tasks : List String) (m2 : OrderMsg) (clid : String),
        clid ∈ OkxSimulatedTrader.consume_one tasks m2 →
        ∃ it l, m2.data = some (it :: l) := by
  have hred : OkxSimulatedTrader.cancel_order st clordid m
      = ((OkxSimulatedTrader.cancel_decide st clordid m).1, [LAction.sendCancel],
          (OkxSimulatedTrader.cancel_decide st clordid m).2) := by
    simp [OkxSimulatedTrader.cancel_order, hid, hord, hsym]
  refine ⟨?_, ?_, ?_, ?_⟩
  · intro hc
    rw [hred]
    simp only [OkxSimulatedTrader.cancel_decide, OkxSimulatedTrader.extract_sMsg, hdata, hc,
      if_true]
    exact statusOf_setStatus st clordid "canceled" ord hord
  · intro hc hfill
    rw [hred]
    simp only [OkxSimulatedTrader.cancel_decide, OkxSimulatedTrader.extract_sMsg, hdata]
    rw [if_neg hc, if_pos hfill]
    exact statusOf_setStatus st clordid "filled" ord hord
  · intro hc hfill
    rw [hred]
    simp only [OkxSimulatedTrader.cancel_decide, OkxSimulatedTrader.extract_sMsg, hdata]
    rw [if_neg hc, if_neg (by simp [hfill])]
    exact ⟨by simp [OkxSimulatedTrader.statusOf, hord], rfl⟩
  · intro tasks m2 clid h
    cases hd : m2.data with
    | none => simp [OkxSimulatedTrader.consume_one, hd] at h
    | some items =>
      cases items with
      | nil => simp [OkxSimulatedTrader.consume_one, hd] at h
      | cons it l => exact ⟨it, l, rfl⟩

/-- Witness for C1 at concrete inputs: a code-"0" cancel ack yields status
canceled, and a code-51402 ack whose text reports a fill yields filled. -/
theorem cancel_ack_trichotomy_witness :
    OkxSimulatedTrader.statusOf
        (OkxSimulatedTrader.cancel_order oneOrderState "abc" ackOk).1 "abc"
      = some "canceled"
    ∧ OkxSimulatedTrader.statusOf
        (OkxSimulatedTrader.cancel_order oneOrderState "abc" ackFilledText).1 "abc"
      = some "filled" :=
  ⟨(cancel_ack_trichotomy oneOrderState "abc" pendingOrder ackOk
      { clOrdId := some "abc", sMsg := some "" } []
      (by decide) (by decide) (by decide) rfl).1 rfl,
    (cancel_ack_trichotomy oneOrderState "abc" pendingOrder ackFilledText
      { clOrdId := some "abc", sMsg := some "Order has been filled" } []
      (by decide) (by decide) (by decide) rfl).2.1 (by decide) (by decide)⟩

/-- C2 as stated is false on the code: a submission acknowledgment never
changes the status field. With ack code "1" the lifecycle terminates at once
(only the placement send happens) but the registered status stays "pending",
not the claimed terminal "failed"; and a code-"0" ack leaves the submit step
a no-op on the state, so the status entering the timeout sleep is still
"pending", never "submitted". -/
theorem submit_never_marks_status :
    (OkxSimulatedTrader.statusOf
        (OkxSimulatedTrader.process_order oneOrderState "abc" ackRejected none ackOk none).1
        "abc" = some "pending"
      ∧ OkxSimulatedTrader.statusOf
          (OkxSimulatedTrader.process_order oneOrderState "abc" ackRejected none ackOk none).1
          "abc" ≠ some "failed"
      ∧ (OkxSimulatedTrader.process_order oneOrderState "abc" ackRejected none ackOk none).2.1
          = [LAction.sendOrder])
    ∧ (OkxSimulatedTrader.submit_order oneOrderState ackOk).1 = oneOrderState
    ∧ (OkxSimulatedTrader.submit_order oneOrderState ackOk).2.1 = true
    ∧ OkxSimulatedTrader.statusOf oneOrderState "abc" = some "pending" := by
  refine ⟨⟨?_, ?_, ?_⟩, ?_, ?_, ?_⟩ <;> decide

/-- C2 amended: a non-zero submission ack code makes the lifecycle task
terminate immediately — no timeout sleep, no oracle query, no cancel
attempt — with the orders registry (hence the status) untouched; a code-"0"
ack lets the task proceed to the timeout sleep, the submit step itself
leaving the whole state unchanged. In neither case is a `submitted` or
`failed` status written. -/
theorem submit_ack_flow (st : TraderState) (clordid : String) (m : OrderMsg)
    (oracle : Option String) (cAck : OrderMsg) :
    (m.code ≠ some "0" →
      (OkxSimulatedTrader.process_order st clordid m oracle cAck none).1.orders = st.orders
      ∧ (OkxSimulatedTrader.process_order st clordid m oracle cAck none).2.1
          = [LAction.sendOrder])
    ∧ (m.code = some "0" →
      LAction.sleepTimeout
          ∈ (OkxSimulatedTrader.process_order st clordid m oracle cAck none).2.1
      ∧ (OkxSimulatedTrader.submit_order st m).1 = st) := by
  constructor
  · intro h
    simp [OkxSimulatedTrader.process_order, OkxSimulatedTrader.process_order_body,
      OkxSimulatedTrader.submit_order, OkxSimulatedTrader.popTask, h]
  · intro h
    refine ⟨?_, rfl⟩
    by_cases ho : OkxSimulatedTrader.oracleTerminal oracle
    · simp [OkxSimulatedTrader.process_order, OkxSimulatedTrader.process_order_body,
        OkxSimulatedTrader.submit_order, h, ho]
    · simp [OkxSimulatedTrader.process_order, OkxSimulatedTrader.process_order_body,
        OkxSimulatedTrader.submit_order, h, ho]

/-- Witness for C2's amended statement at a concrete input: a rejected
submission leaves the registry untouched and performs only the send. -/
theorem submit_ack_flow_witness :
    (OkxSimulatedTrader.process_order oneOrderState "abc" ackRejected none ackOk none).1.orders
      = oneOrderState.orders
    ∧ (OkxSimulatedTrader.process_order oneOrderState "abc" ackRejected none ackOk none).2.1
      = [LAction.sendOrder] :=
  (submit_ack_flow oneOrderState "abc" ackRejected none ackOk).1 (by decide)

/-- C4: after a successful submission acknowledgment and the timeout sleep,
a cancel request is sent if and only if the oracle's answer is neither
`filled` nor `canceled` — a `None` answer from an oracle failure included;
and a `filled`/`canceled` oracle answer is recorded as the order's final
status with no cancel request ever sent. -/
theorem cancel_iff_oracle_not_terminal (st : TraderState) (clordid : String)
    (ord : OrderInfo) (m : OrderMsg) (oracle : Option String) (cAck : OrderMsg)
    (hsub : m.code = some "0") (hid : clordid ≠ "")
    (hord : lookupOrder st.orders clordid = some ord) (hsym : ord.symbol ≠ "") :
    (LAction.sendCancel
        ∈ (OkxSimulatedTrader.process_order st clordid m oracle cAck none).2.1
      ↔ ¬(oracle = some "filled" ∨ oracle = some "canceled"))
    ∧ ∀ s, oracle = some s → (s = "filled" ∨ s = "canceled") →
        OkxSimulatedTrader.statusOf
            (OkxSimulatedTrader.process_order st clordid m oracle cAck none).1 clordid
          = some s
        ∧ LAction.sendCancel
            ∉ (OkxSimulatedTrader.process_order st clordid m oracle cAck none).2.1 := by
  have hsend : (OkxSimulatedTrader.cancel_order st clordid cAck).2.1
      = [LAction.sendCancel] := by
    simp [OkxSimulatedTrader.cancel_order, hid, hord, hsym]
  constructor
  · by_cases hterm : oracle = some "filled" ∨ oracle = some "canceled"
    · have hb : OkxSimulatedTrader.oracleTerminal oracle = true :=
        (oracleTerminal_iff oracle).mpr hterm
      have hacts : (OkxSimulatedTrader.process_order st clordid m oracle cAck none).2.1
          = [LAction.sendOrder, LAction.sleepTimeout, LAction.queryOracle] := by
        simp [OkxSimulatedTrader.process_order, OkxSimulatedTrader.process_order_body,
          OkxSimulatedTrader.submit_order, hsub, hb]
      rw [hacts]
      simp [hterm]
    · have hb : OkxSimulatedTrader.oracleTerminal oracle = false := by
        cases hob : OkxSimulatedTrader.oracleTerminal oracle
        · rfl
        · exact absurd ((oracleTerminal_iff oracle).mp hob) hterm
      have hacts : (OkxSimulatedTrader.process_order st clordid m oracle cAck none).2.1
          = [LAction.sendOrder, LAction.sleepTimeout, LAction.queryOracle]
            ++ [LAction.sendCancel] := by
        simp [OkxSimulatedTrader.process_order, OkxSimulatedTrader.process_order_body,
          OkxSimulatedTrader.submit_order, hsub, hb, hsend]
      rw [hacts]
      simp [hterm]
  · intro s hs hterm2
    subst hs
    have hb : OkxSimulatedTrader.oracleTerminal (some s) = true :=
      (oracleTerminal_iff (some s)).mpr (by
        rcases hterm2 with h | h
        · exact Or.inl (by rw [h])
        · exact Or.inr (by rw [h]))
    have hred : (OkxSimulatedTrader.process_order st clordid m (some s) cAck none).1
        = OkxSimulatedTrader.popTask (OkxSimulatedTrader.setStatus st clordid s) clordid := by
      simp [OkxSimulatedTrader.process_order, OkxSimulatedTrader.process_order_body,
        OkxSimulatedTrader.submit_order, hsub, hb]
    have hacts : (OkxSimulatedTrader.process_order st clordid m (some s) cAck none).2.1
        = [LAction.sendOrder, LAction.sleepTimeout, LAction.queryOracle] := by
      simp [OkxSimulatedTrader.process_order, OkxSimulatedTrader.process_order_body,
        OkxSimulatedTrader.submit_order, hsub, hb]
    refine ⟨?_, ?_⟩
    · rw [hred, statusOf_popTask]
      exact statusOf_setStatus st clordid s ord hord
    · rw [hacts]
      decide

/-- Witness for C4 at a concrete input: with a successful submission and an
unknown (None) oracle answer, the cancel request is sent. -/
theorem cancel_iff_oracle_not_terminal_witness :
    LAction.sendCancel
      ∈ (OkxSimulatedTrader.process_order oneOrderState "abc" ackOk none ackOk none).2.1 :=
  ((cancel_iff_oracle_not_terminal oneOrderState "abc" pendingOrder ackOk none ackOk
      rfl (by decide) (by decide) (by decide)).1).mpr (by simp)

/-- C5: the `finally` of `process_order` removes the order's task entry on
every path — submit failure, oracle-terminal return, cancel path, and
injected uncaught errors alike; and the consumer delivers a message to an
id's mailbox exactly when a data element carries that clOrdId and the id is
currently registered in `order_tasks` — everything else (unknown ids,
completed orders, frames without a data payload) is dropped, the total
delivery function never raising. -/
theorem cleanup_and_routing (st : TraderState) (clordid : String) (sAck : OrderMsg)
    (oracle : Option String) (cAck : OrderMsg) (fault : Option FaultPoint) :
    clordid
        ∉ (OkxSimulatedTrader.process_order st clordid sAck oracle cAck fault).1.order_tasks
    ∧ ∀ (tasks : List String) (m : OrderMsg) (clid : String),
        clid ∈ OkxSimulatedTrader.consume_one tasks m
          ↔ clid ∈ tasks
            ∧ ∃ items, m.data = some items ∧ ∃ it ∈ items, it.clOrdId = some clid := by
  constructor
  · intro h
    have hred : (OkxSimulatedTrader.process_order st clordid sAck oracle cAck fault).1
        = OkxSimulatedTrader.popTask
            (OkxSimulatedTrader.process_order_body st clordid sAck oracle cAck fault).1
            clordid := rfl
    rw [hred] at h
    simp [OkxSimulatedTrader.popTask, List.mem_filter] at h
  · intro tasks m clid
    cases hd : m.data with
    | none => simp [OkxSimulatedTrader.consume_one, hd]
    | some items =>
      simp [OkxSimulatedTrader.consume_one, hd, List.mem_filter, List.mem_filterMap]
      tauto

/-- C6: `get_order_status` returns the unknown value `None` and logs on
every failure — request exception (which covers network errors and the
`raise_for_status` of a bad HTTP status), non-zero response code, and empty
result set; being a total function of the HTTP outcome, it propagates no
exception to the caller. -/
theorem oracle_failure_contract (b : RestEnvelope) :
    OrderStatusChecker.get_order_status HttpOutcome.requestError = (none, true)
    ∧ (b.code ≠ some "0" →
        OrderStatusChecker.get_order_status (HttpOutcome.response b) = (none, true))
    ∧ (b.data = [] →
        OrderStatusChecker.get_order_status (HttpOutcome.response b) = (none, true)) := by
  refine ⟨rfl, ?_, ?_⟩
  · intro h
    simp [OrderStatusChecker.get_order_status, h]
  · intro h
    by_cases hc : b.code = some "0"
    · simp [OrderStatusChecker.get_order_status, hc, h]
    · simp [OrderStatusChecker.get_order_status, hc]

/-- Witness for C6 at a concrete input: a non-zero response code yields
`None` with the failure logged. -/
theorem oracle_failure_contract_witness :
    OrderStatusChecker.get_order_status
        (HttpOutcome.response { code := some "1", data := [] }) = (none, true) :=
  (oracle_failure_contract { code := some "1", data := [] }).2.1 (by decide)

/-- C9: the trader's `generate_signature` and the status checker's
`_generate_signature` compute the same pure function — for any
interpretation of the shared `hmac`/`base64` library primitives, each
returns the base64 encoding of the HMAC-SHA256, keyed by the secret, of
timestamp + uppercased method + request path + body, so the two
implementations agree on all inputs. -/
theorem signature_implementations_agree
    (hmac_sha256 : String → String → List UInt8) (b64encode : List UInt8 → String)
    (secret timestamp method request_path body : String) :
    OkxSimulatedTrader.generate_signature hmac_sha256 b64encode
        secret timestamp method request_path body
      = b64encode (hmac_sha256 secret (timestamp ++ method.toUpper ++ request_path ++ body))
    ∧ OrderStatusChecker._generate_signature hmac_sha256 b64encode
        secret timestamp method request_path body
      = b64encode (hmac_sha256 secret (timestamp ++ method.toUpper ++ request_path ++ body))
    ∧ OkxSimulatedTrader.generate_signature hmac_sha256 b64encode
        secret timestamp method request_path body
      = OrderStatusChecker._generate_signature hmac_sha256 b64encode
          secret timestamp method request_path body :=
  ⟨rfl, rfl, rfl⟩
